import Mathlib

/-!
Verification of the CoverFlowAI provider-adapter layer against its
natural-language specification.

The definitions below are a shallow embedding of `src/services/geminiService.ts`
and of the UI dispatch function `handleGenerate` (App component).  JavaScript
strings are modelled as Lean `String`, `undefined`-able values as `Option`,
thrown errors as `Except`/explicit error values, and the network as explicit
oracles (functions supplying the response of each HTTP call).
-/

/-- JS truthiness of a possibly-undefined string (`undefined` and `""` are falsy). -/
def jsTruthy : Option String → Bool
  | some s => s != ""
  | none => false

/-- JS `a || b` for a possibly-undefined/empty string `a` with default `b`
    (used for `err.message || response.statusText` and alike). -/
def jsOrElse (m : Option String) (d : String) : String :=
  match m with
  | some s => if s == "" then d else s
  | none => d

/-- JS template interpolation of a possibly-undefined string
    (interpolating `undefined` yields the text "undefined"). -/
def jsInterp : Option String → String
  | some s => s
  | none => "undefined"

/-- The character code of the regex test `/[一-龥]/` lower bound is 0x4e00,
    upper bound 0x9fa5; this is the per-character test. -/
def isCJK (c : Char) : Bool := 0x4e00 ≤ c.toNat && c.toNat ≤ 0x9fa5

/-- `/[一-龥]/.test(s)`: some character of `s` lies in the CJK range. -/
def hasCJKStr (s : String) : Bool := s.data.any isCJK

/-- `s` contains `sub` as a contiguous substring. -/
def strContains (s sub : String) : Prop :=
  ∃ l r : List Char, s.data = l ++ sub.data ++ r

/-- Helper for `String.includes`: does `sub` start `l`? -/
def listStartsWith : List Char → List Char → Bool
  | [], _ => true
  | _ :: _, [] => false
  | a :: as, b :: bs => a == b && listStartsWith as bs

/-- Helper for `String.includes`: does `sub` occur inside `l`? -/
def listInfixB (sub : List Char) : List Char → Bool
  | [] => sub.isEmpty
  | c :: t => listStartsWith sub (c :: t) || listInfixB sub t

/-- Executable JS `s.includes(sub)`. -/
def strIncludesB (s sub : String) : Bool := listInfixB sub.data s.data

/-- JS `m?.includes(sub)` used as a boolean condition (`undefined` is falsy). -/
def optIncludes (m : Option String) (sub : String) : Bool :=
  match m with
  | some s => strIncludesB s sub
  | none => false

/-- An ASCII apostrophe, written via its character code. -/
def apos : String := String.singleton (Char.ofNat 39)

-- --- Data model (src/types, as used by the service file) ---

/-- An attached image file: only its base64 payload and MIME type are ever read
    (`fileToBase64` / `getMimeType`). -/
structure ImgFile where
  base64 : String
  mime : String

/-- `CoverFormData` from src/types: platform and aspectRatio are their enum string
    values (e.g. "16:9"). -/
structure CoverFormData where
  mainTitle : String
  subTitle : String
  subjectImage : Option ImgFile
  referenceImage : Option ImgFile
  instruction : String
  platform : String
  aspectRatio : String

/-- `ModelProvider` enum as used by `generateCoverImage`. -/
inductive ModelProvider where
  | GEMINI
  | SILICONFLOW
  | GLM
  | QWEN
  | DOUBAO
deriving DecidableEq

-- --- buildPrompt (src/services/geminiService.ts lines 38-78) ---

/-- Template text before `${data.platform}`. -/
def promptP1 : String := "\n    Design a professional viral video thumbnail for "

/-- Template text between `${data.platform}` and `${data.mainTitle}`. -/
def promptP2 : String := ".\n    \n    CRITICAL TEXT INSTRUCTIONS (MUST RENDER EXACTLY):\n    1. The image MUST contain the Main Title: \""

/-- Template text between `${data.mainTitle}` and `${data.subTitle}`. -/
def promptP3 : String := "\"\n    2. The image MUST contain the Subtitle: \""

/-- Template text between `${data.subTitle}` and `${data.instruction}`. -/
def promptP4 : String := "\"\n    3. Text must be perfectly legible, correct spelling, high contrast, and professional typography.\n    \n    VISUAL STYLE & CONTENT:\n    "

/-- Template text between `${data.instruction}` and `${data.aspectRatio}`. -/
def promptP5 : String := "\n    \n    Aspect Ratio: "

/-- Template text after `${data.aspectRatio}`. -/
def promptP6 : String := ".\n    Resolution: High definition, 4K, detailed texture.\n  "

/-- The Chinese-script reinforcement block appended when `hasChinese || forceChineseContext`. -/
def chineseBlock : String := "\n    \n    LANGUAGE SETTING: CHINESE (简体中文)\n    - The text contains Chinese characters (Hanzi).\n    - You MUST render the Chinese characters correctly with correct strokes.\n    - Do NOT generate garbled text, gibberish, or fake characters.\n    - Use a bold, modern Chinese font (like Heiti or Sans-serif).\n    "

/-- Directive appended when a reference image is attached. -/
def refDirective : String := "\nUse the provided [REFERENCE IMAGE] as a strict reference for layout, composition, and color palette."

/-- Directive appended when a subject image is attached. -/
def subjDirective : String := "\nUse the provided [SUBJECT IMAGE] as the main character/subject in the composition."

/-- `hasChinese` in `buildPrompt`: the regex test on mainTitle + subTitle + instruction. -/
def hasChineseOf (data : CoverFormData) : Bool :=
  hasCJKStr (data.mainTitle ++ data.subTitle ++ data.instruction)

/-- The base template-literal prompt (before the conditional suffixes). -/
def basePrompt (data : CoverFormData) : String :=
  promptP1 ++ data.platform ++ promptP2 ++ data.mainTitle ++ promptP3 ++ data.subTitle
    ++ promptP4 ++ data.instruction ++ promptP5 ++ data.aspectRatio ++ promptP6

/-- `buildPrompt` from the service file: base template, then the Chinese block when
    `hasChinese || forceChineseContext`, then the reference directive when a
    reference image is attached, then the subject directive when a subject image
    is attached. -/
def buildPrompt (data : CoverFormData) (forceChineseContext : Bool := false) : String :=
  let hasChinese := hasChineseOf data
  let prompt := basePrompt data
  let prompt := if hasChinese || forceChineseContext then prompt ++ chineseBlock else prompt
  let prompt := if data.referenceImage.isSome then prompt ++ refDirective else prompt
  if data.subjectImage.isSome then prompt ++ subjDirective else prompt

-- --- checkApiKey (src/services/geminiService.ts lines 15-27) ---

/-- The ambient host environment probed by `checkApiKey`:
    `hasSelectedApiKey = none` models `window.aistudio`/its method being absent,
    `some b` models the call returning `b`; `envApiKey` models `process.env.API_KEY`. -/
structure HostEnv where
  hasSelectedApiKey : Option Bool
  envApiKey : Option String

/-- `checkApiKey(provider, savedKey)`. For Gemini: true when the interactive signal
    reports a selected key, else `!!(savedKey || process.env.API_KEY)`.
    For every other provider: `!!savedKey && savedKey.length > 5`.
    The embedding is a pure function: the source mutates no state. -/
def checkApiKey (env : HostEnv) (provider : ModelProvider) (savedKey : Option String) : Bool :=
  match provider with
  | .GEMINI =>
    match env.hasSelectedApiKey with
    | some true => true
    | _ => jsTruthy savedKey || jsTruthy env.envApiKey
  | _ => jsTruthy savedKey && decide (5 < (savedKey.getD "").length)

-- --- SiliconFlow adapter (src/services/geminiService.ts lines 160-199) ---

/-- The Flux-specific suffix appended to the prompt by the SiliconFlow adapter. -/
def sfFluxSuffix : String := "\nRender text in high quality. No typos."

/-- The JSON request body sent to the SiliconFlow endpoint: only these four text
    fields, no image payload of any kind. -/
structure SFRequestBody where
  model : String
  prompt : String
  image_size : String
  num_inference_steps : Nat
deriving DecidableEq

/-- The body built by `generateWithSiliconFlow` for a request. -/
def sfRequestBody (data : CoverFormData) (model : String) : SFRequestBody :=
  { model := model
    prompt := buildPrompt data ++ sfFluxSuffix
    image_size := "1024x1024"
    num_inference_steps := 25 }

/-- One element of the `data` array of a SiliconFlow success response. -/
structure SFItem where
  url : String
deriving DecidableEq

/-- A SiliconFlow HTTP response as the adapter reads it: `ok` flag, the `message`
    field of the parsed error body (for the non-ok path), `statusText`, and the
    `data` array of the parsed success body (absent when missing). -/
structure SFResponse where
  ok : Bool
  errMessage : Option String
  statusText : String
  data : Option (List SFItem)

/-- Error-message prefix used by the SiliconFlow adapter. -/
def sfErrPrefix : String := "SiliconFlow Error: "

/-- The "no image data" failure message of the SiliconFlow adapter. -/
def sfNoImageMsg : String := "No image data returned from SiliconFlow."

/-- Response handling of `generateWithSiliconFlow`: non-ok throws
    `SiliconFlow Error: ${err.message || response.statusText}`; otherwise the
    `data` array is mapped to its urls when nonempty, else the no-image error. -/
def siliconFlowHandleResponse (resp : SFResponse) : Except String (List String) :=
  if !resp.ok then .error (sfErrPrefix ++ jsOrElse resp.errMessage resp.statusText)
  else
    match resp.data with
    | some (i :: is) => .ok ((i :: is).map SFItem.url)
    | _ => .error sfNoImageMsg

-- --- Gemini adapter (src/services/geminiService.ts lines 83-157) ---

/-- A part of the multimodal Gemini request. -/
inductive GemPart where
  | inlineData (data : String) (mimeType : String)
  | text (t : String)
deriving DecidableEq

/-- The request config: aspect-ratio hint, plus the `imageSize` hint that is set
    only when the model id contains "gemini-3-pro". -/
structure GemConfig where
  aspectRatio : String
  imageSize : Option String
deriving DecidableEq

/-- One `generateContent` call as issued by the adapter. -/
structure GemCall where
  model : String
  parts : List GemPart
  config : GemConfig
deriving DecidableEq

/-- The parts list built by `generateWithGemini`: subject image (with label),
    then reference image (with label), then the built prompt text. -/
def geminiParts (data : CoverFormData) : List GemPart :=
  (match data.subjectImage with
   | some f => [.inlineData f.base64 f.mime, .text "This is the [SUBJECT IMAGE]."]
   | none => [])
  ++ (match data.referenceImage with
      | some f => [.inlineData f.base64 f.mime, .text "This is the [REFERENCE IMAGE] for style."]
      | none => [])
  ++ [.text (buildPrompt data)]

/-- The config built by `generateWithGemini`. -/
def geminiConfig (data : CoverFormData) (model : String) : GemConfig :=
  { aspectRatio := data.aspectRatio
    imageSize := if strIncludesB model "gemini-3-pro" then some "1K" else none }

/-- The single `generateContent` call issued by `generateWithGemini`. -/
def geminiCall (data : CoverFormData) (model : String) : GemCall :=
  { model := model, parts := geminiParts data, config := geminiConfig data model }

/-- A thrown JS error value as inspected by the catch block: optional `status`
    and optional `message`. -/
structure JsError where
  status : Option Nat
  message : Option String
deriving DecidableEq

/-- `inlineData` of a response part: optional MIME type and base64 payload. -/
structure GemInlineData where
  mimeType : Option String
  data : String
deriving DecidableEq

/-- A part of the first candidate content of a Gemini response. -/
structure GemRespPart where
  inlineData : Option GemInlineData
deriving DecidableEq

/-- Outcome of one `generateContent` call: either an HTTP-level success carrying
    `candidates[0].content.parts` (absent when the chain of fields is missing),
    or a thrown error. -/
inductive GenOutcome where
  | parts (candidateParts : Option (List GemRespPart))
  | err (e : JsError)

/-- How the adapter fails: either a freshly thrown `Error(msg)` or the original
    error passed through unmodified. -/
inductive GeminiFailure where
  | thrown (msg : String)
  | passThrough (e : JsError)
deriving DecidableEq

/-- The missing-credential message of `generateWithGemini`. -/
def geminiMissingKeyMsg : String := "未检测到 API Key。请在设置中输入 Key 或连接 Google 账户。"

/-- The empty-result message thrown inside the try block. -/
def geminiEmptyMsg : String := "Gemini 生成完成，但没有返回图片数据。"

/-- The fixed permission-denied (403) guidance message. -/
def geminiPermissionMsg : String :=
  "权限拒绝 (403): 您的 API Key 没有权限调用此模型。原因可能为：1. Key 无效。2. 该项目未启用 API。3. Gemini 3.0 Pro 可能需要付费项目的 Key。请尝试切换到 "
    ++ apos ++ "Gemini 2.5 Flash" ++ apos ++ " 模型。"

/-- The fixed network-failure guidance message. -/
def geminiNetworkMsg : String :=
  "网络连接失败：无法连接到 Google 服务。请检查您的网络连接或 VPN 设置 (Network Error)."

/-- The permission-denied test of the catch block:
    `error.status === 403 || error.message?.includes("PERMISSION_DENIED") || error.message?.includes("permission")`. -/
def isPermissionSignal (e : JsError) : Bool :=
  e.status == some 403 || optIncludes e.message "PERMISSION_DENIED" || optIncludes e.message "permission"

/-- The networking-failure test of the catch block. -/
def isNetworkSignal (e : JsError) : Bool :=
  optIncludes e.message "xhr error" || optIncludes e.message "Rpc failed"
    || optIncludes e.message "Fetch failure"

/-- The catch block of `generateWithGemini`: permission errors and network errors
    are replaced by fixed guidance messages, every other error is rethrown as is. -/
def classifyGeminiError (e : JsError) : GeminiFailure :=
  if isPermissionSignal e then .thrown geminiPermissionMsg
  else if isNetworkSignal e then .thrown geminiNetworkMsg
  else .passThrough e

/-- Data-URI extraction from the response parts: every part carrying `inlineData`
    becomes `data:<mime or image/png>;base64,<payload>`. -/
def extractImages (ps : List GemRespPart) : List String :=
  ps.filterMap fun p =>
    p.inlineData.map fun d => "data:" ++ jsOrElse d.mimeType "image/png" ++ ";base64," ++ d.data

/-- A complete run of the Gemini adapter: its result and the list of
    `generateContent` calls it issued, in order. -/
structure GeminiRun where
  result : Except GeminiFailure (List String)
  calls : List GemCall

/-- `generateWithGemini`, with the network abstracted as an oracle `gen` giving the
    outcome of each issued call.  The effective key is `apiKey || process.env.API_KEY`;
    without one the adapter fails before any call.  Exactly one call is issued; an
    empty extracted-image list raises the empty-result error inside the try block,
    which the catch block then classifies like any other thrown error. -/
def generateWithGemini (gen : GemCall → GenOutcome) (data : CoverFormData)
    (model : String) (apiKey : String) (env : HostEnv) : GeminiRun :=
  if jsTruthy (some apiKey) || jsTruthy env.envApiKey then
    let call := geminiCall data model
    match gen call with
    | .parts cand =>
      let images := match cand with
        | some ps => extractImages ps
        | none => []
      if images.isEmpty then
        { result := .error (classifyGeminiError { status := none, message := some geminiEmptyMsg })
          calls := [call] }
      else { result := .ok images, calls := [call] }
    | .err e => { result := .error (classifyGeminiError e), calls := [call] }
  else { result := .error (.thrown geminiMissingKeyMsg), calls := [] }

-- --- Qwen adapter poll loop (src/services/geminiService.ts lines 283-314) ---

/-- One element of the `results` array of a Qwen task-status response. -/
structure QwenItem where
  url : String
deriving DecidableEq

/-- One poll of the task-status endpoint as the loop reads it: either a non-ok
    HTTP response (`!statusResponse.ok`, swallowed by `continue`) or a parsed
    body with its optional `output.task_status`, `output.results` and
    `output.message` fields. -/
inductive PollResponse where
  | httpError
  | ok (task_status : Option String) (results : Option (List QwenItem)) (message : Option String)

/-- The poll budget: `maxAttempts = 30`. -/
def qwenMaxAttempts : Nat := 30

/-- The timeout error message thrown after the loop. -/
def qwenTimeoutMsg : String := "Qwen generation timed out."

/-- The FAILED error message: `Qwen Generation Failed: ${statusResult.output?.message}`. -/
def qwenFailedMsg (m : Option String) : String := "Qwen Generation Failed: " ++ jsInterp m

/-- Observable trace of the poll loop: final outcome, number of status polls
    issued, and seconds of simulated wait (`setTimeout(..., 1000)` runs once per
    iteration, before the poll). -/
structure QwenRun where
  outcome : Except String (List String)
  polls : Nat
  waits : Nat

/-- Account one loop iteration (one 1-second wait and one poll) on top of a run. -/
def qwenStep (r : QwenRun) : QwenRun :=
  { outcome := r.outcome, polls := r.polls + 1, waits := r.waits + 1 }

/-- The `while (status !== "SUCCEEDED" && attempts < maxAttempts)` loop.
    `status` is the mutable status variable (an `Option` because
    `statusResult.output?.task_status` can be undefined), `attempts` the counter,
    and `fuel` a structural bound kept equal to `qwenMaxAttempts - attempts`:
    under that invariant fuel exhaustion coincides with `attempts ≥ maxAttempts`,
    so the fuel-0 case and the failing guard produce the same timeout exit and
    are merged.  Each iteration waits one
    second, increments `attempts`, polls; a non-ok response is `continue`;
    SUCCEEDED with a nonempty `results` returns its urls; SUCCEEDED with an empty
    or absent `results` falls through to the guard; FAILED throws; after the
    loop the timeout error is thrown. -/
def qwenLoopAux (resp : Nat → PollResponse) : Option String → Nat → Nat → QwenRun
  | _, _, 0 => { outcome := .error qwenTimeoutMsg, polls := 0, waits := 0 }
  | status, attempts, fuel' + 1 =>
    if status == some "SUCCEEDED" || qwenMaxAttempts ≤ attempts then
      { outcome := .error qwenTimeoutMsg, polls := 0, waits := 0 }
    else
        match resp attempts with
        | .httpError => qwenStep (qwenLoopAux resp status (attempts + 1) fuel')
        | .ok ts results msg =>
          if ts == some "SUCCEEDED" then
            match results with
            | some (i :: is) =>
              { outcome := .ok ((i :: is).map QwenItem.url), polls := 1, waits := 1 }
            | _ => qwenStep (qwenLoopAux resp ts (attempts + 1) fuel')
          else if ts == some "FAILED" then
            { outcome := .error (qwenFailedMsg msg), polls := 1, waits := 1 }
          else qwenStep (qwenLoopAux resp ts (attempts + 1) fuel')

/-- The poll phase of `generateWithQwen`, abstracting the status endpoint as the
    oracle `resp` (the value of the i-th poll, 0-indexed): starts with
    `status = "PENDING"`, `attempts = 0`. -/
def generateWithQwenPoll (resp : Nat → PollResponse) : QwenRun :=
  qwenLoopAux resp (some "PENDING") 0 qwenMaxAttempts

/-- A poll response that keeps the loop going: neither SUCCEEDED nor FAILED
    (non-ok HTTP responses are swallowed and keep it going too). -/
def qwenNonTerminal : PollResponse → Prop
  | .httpError => True
  | .ok ts _ _ => ts ≠ some "SUCCEEDED" ∧ ts ≠ some "FAILED"

-- --- UI dispatch (src/unnamed/part_000, handleGenerate, lines 65-91) ---

/-- `MODEL_PROVIDERS.find(p => p.id === activeProvider)?.name` (src/constants.ts
    lists entries for Gemini and SiliconFlow). -/
def providerDisplayName : ModelProvider → Option String
  | .GEMINI => some "Google Gemini"
  | .SILICONFLOW => some "SiliconFlow"
  | _ => none

/-- The configuration error raised by `handleGenerate` for a non-Gemini provider
    whose credential check failed. -/
def configErrMsg (p : ModelProvider) : String :=
  "Please enter an API Key for " ++ jsInterp (providerDisplayName p) ++ " in Settings."

/-- What `handleGenerate` does after the credential check: either it reaches the
    `generateCoverImage` call (recording whether the interactive key-selection
    flow was attempted first), or it throws a configuration error before any
    adapter call. -/
inductive DispatchOutcome where
  | proceed (selectionAttempted : Bool)
  | configError (msg : String)
deriving DecidableEq

/-- The credential-check-and-dispatch logic of `handleGenerate`: a passing check
    proceeds directly; a failing check for Gemini attempts interactive key
    selection and still proceeds; a failing check for any other provider throws
    the configuration error (and `generateCoverImage` is never reached). -/
def handleGenerateDispatch (env : HostEnv) (provider : ModelProvider)
    (savedKey : Option String) : DispatchOutcome :=
  if checkApiKey env provider savedKey then .proceed false
  else
    match provider with
    | .GEMINI => .proceed true
    | _ => .configError (configErrMsg provider)

-- --- Remaining adapter pieces and concrete sample inputs ---

/-- The missing-credential message of the SiliconFlow adapter. -/
def sfKeyRequiredMsg : String := "SiliconFlow API Key is required."

/-- `generateWithSiliconFlow`, with the network abstracted as an oracle `fetch`
    giving the HTTP response to the issued request body: fails immediately
    without a key, otherwise issues exactly the body `sfRequestBody data model`
    and handles the response. -/
def generateWithSiliconFlow (fetch : SFRequestBody → SFResponse) (data : CoverFormData)
    (model apiKey : String) : Except String (List String) :=
  if apiKey == "" then .error sfKeyRequiredMsg
  else siliconFlowHandleResponse (fetch (sfRequestBody data model))

/-- The quota/resource-exhaustion signal as the specification describes it.  The
    catch block of `generateWithGemini` contains no test for it; this predicate
    exists only to state the claim about such errors. -/
def isQuotaSignal (e : JsError) : Bool :=
  e.status == some 429 || optIncludes e.message "RESOURCE_EXHAUSTED"
    || optIncludes e.message "quota"

/-- A concrete CJK-free request with no attached images. -/
def sampleData : CoverFormData :=
  { mainTitle := "A", subTitle := "B", subjectImage := none, referenceImage := none,
    instruction := "Make it pop.", platform := "YouTube", aspectRatio := "16:9" }

/-- A concrete attached image file. -/
def sampleFile : ImgFile := { base64 := "QkFTRTY0", mime := "image/png" }

/-- `sampleData` with a reference image attached. -/
def sampleDataRef : CoverFormData := { sampleData with referenceImage := some sampleFile }

/-- The high-tier Gemini model id from src/constants.ts. -/
def highTierModel : String := "gemini-3-pro-image-preview"

/-- A concrete permission-denied error (status 403). -/
def permErr : JsError := { status := some 403, message := some "PERMISSION_DENIED" }

/-- A concrete quota/resource-exhaustion error. -/
def quotaErr : JsError :=
  { status := some 429
    message := some "RESOURCE_EXHAUSTED: You exceeded your current quota. Please review your plan and billing details." }

/-- A generate oracle that rejects the high-tier model with a permission error and
    would let any other model succeed with one image. -/
def permOnHighTierGen : GemCall → GenOutcome := fun call =>
  if call.model == highTierModel then .err permErr
  else .parts (some [{ inlineData := some { mimeType := some "image/png", data := "QUFB" } }])

/-- A generate oracle that always reports the quota error. -/
def quotaGen : GemCall → GenOutcome := fun _ => .err quotaErr

/-- A poll oracle that reports PENDING forever. -/
def qwenAllPending : Nat → PollResponse := fun _ => .ok (some "PENDING") none none

/-- A poll oracle: PENDING, PENDING, then SUCCEEDED with one result. -/
def qwenPendPendSucc : Nat → PollResponse := fun i =>
  if i = 2 then .ok (some "SUCCEEDED") (some [{ url := "https://cdn.example/i1.png" }]) none
  else .ok (some "PENDING") none none

/-- A poll oracle: a non-ok HTTP response, then SUCCEEDED with one result. -/
def qwenErrThenSucc : Nat → PollResponse := fun i =>
  if i = 0 then .httpError
  else .ok (some "SUCCEEDED") (some [{ url := "https://cdn.example/i2.png" }]) none

/-- A poll oracle: a non-ok HTTP response, then PENDING up to poll 29, and a
    SUCCEEDED that would only be visible at poll index 30. -/
def qwenErrThenPend : Nat → PollResponse := fun i =>
  if i = 0 then .httpError
  else if i = 30 then .ok (some "SUCCEEDED") (some [{ url := "https://cdn.example/i3.png" }]) none
  else .ok (some "PENDING") none none

/-- A poll oracle that immediately reports SUCCEEDED with an empty results list. -/
def qwenEmptySucc : Nat → PollResponse := fun _ => .ok (some "SUCCEEDED") (some []) none

-- --- Generic string lemmas ---

theorem strContains_self (s : String) : strContains s s :=
  ⟨[], [], by simp⟩

theorem strContains_empty (s : String) : strContains s "" :=
  ⟨s.data, [], by simp⟩

theorem strContains_appendL {t sub : String} (s : String) (h : strContains t sub) :
    strContains (s ++ t) sub := by
  obtain ⟨l, r, hl⟩ := h
  exact ⟨s.data ++ l, r, by simp [String.data_append, hl]⟩

theorem strContains_appendR {s sub : String} (h : strContains s sub) (t : String) :
    strContains (s ++ t) sub := by
  obtain ⟨l, r, hl⟩ := h
  exact ⟨l, r ++ t.data, by simp [String.data_append, hl]⟩

theorem strContains_suffix (a sub : String) : strContains (a ++ sub) sub :=
  strContains_appendL a (strContains_self sub)

theorem strContains_mem {s sub : String} {c : Char} (h : strContains s sub)
    (hc : c ∈ sub.data) : c ∈ s.data := by
  obtain ⟨l, r, hl⟩ := h
  simp [hl, hc]

theorem hasCJK_append (s t : String) :
    hasCJKStr (s ++ t) = (hasCJKStr s || hasCJKStr t) := by
  simp [hasCJKStr, String.data_append, List.any_append]

theorem hasCJK_false_not_mem {s : String} {c : Char} (h : hasCJKStr s = false)
    (hmem : c ∈ s.data) : isCJK c = false := by
  rw [hasCJKStr, List.any_eq_false] at h
  simpa using h c hmem

-- --- Structure of buildPrompt ---

theorem buildPrompt_decomp (d : CoverFormData) (f : Bool) :
    ∃ tail, buildPrompt d f =
      (if hasChineseOf d || f then basePrompt d ++ chineseBlock else basePrompt d) ++ tail := by
  unfold buildPrompt
  cases hr : d.referenceImage.isSome <;> cases hs : d.subjectImage.isSome <;>
    simp only [hr, hs, if_true, if_false, Bool.false_eq_true, ite_false, ite_true]
  · exact ⟨"", (String.append_empty _).symm⟩
  · exact ⟨subjDirective, rfl⟩
  · exact ⟨refDirective, rfl⟩
  · exact ⟨refDirective ++ subjDirective, (String.append_assoc _ _ _)⟩

theorem basePrompt_contains_mainTitle (d : CoverFormData) :
    strContains (basePrompt d) d.mainTitle := by
  refine ⟨(promptP1 ++ d.platform ++ promptP2).data,
    (promptP3 ++ d.subTitle ++ promptP4 ++ d.instruction ++ promptP5 ++ d.aspectRatio
      ++ promptP6).data, ?_⟩
  simp [basePrompt, String.data_append]

theorem basePrompt_contains_subTitle (d : CoverFormData) :
    strContains (basePrompt d) d.subTitle := by
  refine ⟨(promptP1 ++ d.platform ++ promptP2 ++ d.mainTitle ++ promptP3).data,
    (promptP4 ++ d.instruction ++ promptP5 ++ d.aspectRatio ++ promptP6).data, ?_⟩
  simp [basePrompt, String.data_append]

theorem basePrompt_contains_aspectRatio (d : CoverFormData) :
    strContains (basePrompt d) d.aspectRatio := by
  refine ⟨(promptP1 ++ d.platform ++ promptP2 ++ d.mainTitle ++ promptP3 ++ d.subTitle
      ++ promptP4 ++ d.instruction ++ promptP5).data, promptP6.data, ?_⟩
  simp [basePrompt, String.data_append]

theorem buildPrompt_contains_of_base {d : CoverFormData} {x : String} (f : Bool)
    (h : strContains (basePrompt d) x) : strContains (buildPrompt d f) x := by
  obtain ⟨tail, htail⟩ := buildPrompt_decomp d f
  rw [htail]
  apply strContains_appendR
  split
  · exact strContains_appendR h chineseBlock
  · exact h

/-- C5: for every CoverRequest, the output of buildPrompt contains the mainTitle
    string and the subTitle string verbatim as substrings, and contains the
    aspect-ratio string (e.g. the literal "16:9") verbatim. -/
theorem c5_prompt_contains_titles_and_ratio (d : CoverFormData) (f : Bool) :
    strContains (buildPrompt d f) d.mainTitle
    ∧ strContains (buildPrompt d f) d.subTitle
    ∧ strContains (buildPrompt d f) d.aspectRatio :=
  ⟨buildPrompt_contains_of_base f (basePrompt_contains_mainTitle d),
   buildPrompt_contains_of_base f (basePrompt_contains_subTitle d),
   buildPrompt_contains_of_base f (basePrompt_contains_aspectRatio d)⟩

-- --- C2: the script-reinforcement block ---

theorem buildPrompt_cjk_free (d : CoverFormData)
    (h1 : hasCJKStr d.mainTitle = false) (h2 : hasCJKStr d.subTitle = false)
    (h3 : hasCJKStr d.instruction = false) (h4 : hasCJKStr d.platform = false)
    (h5 : hasCJKStr d.aspectRatio = false) :
    hasCJKStr (buildPrompt d false) = false := by
  have hbc : hasChineseOf d = false := by
    simp [hasChineseOf, hasCJK_append, h1, h2, h3]
  have p1 : hasCJKStr promptP1 = false := by decide
  have p2 : hasCJKStr promptP2 = false := by decide
  have p3 : hasCJKStr promptP3 = false := by decide
  have p4 : hasCJKStr promptP4 = false := by decide
  have p5 : hasCJKStr promptP5 = false := by decide
  have p6 : hasCJKStr promptP6 = false := by decide
  have pr : hasCJKStr refDirective = false := by decide
  have ps : hasCJKStr subjDirective = false := by decide
  have hbase : hasCJKStr (basePrompt d) = false := by
    simp [basePrompt, hasCJK_append, p1, p2, p3, p4, p5, p6, h1, h2, h3, h4, h5]
  unfold buildPrompt
  rw [hbc]
  cases hr : d.referenceImage.isSome <;> cases hs : d.subjectImage.isSome <;>
    simp [hasCJK_append, hbase, pr, ps]

/-- C2: for every CoverRequest whose mainTitle, subTitle, or instruction contains
    at least one CJK ideograph (a character of the code's Unicode range test),
    the output of buildPrompt includes the script-reinforcement directive block;
    for every input containing no CJK character, with forceScriptHint = false,
    the block is absent. -/
theorem c2_script_block (d : CoverFormData) :
    (∀ f : Bool,
      hasCJKStr d.mainTitle = true ∨ hasCJKStr d.subTitle = true
          ∨ hasCJKStr d.instruction = true →
      strContains (buildPrompt d f) chineseBlock)
    ∧ (hasCJKStr d.mainTitle = false → hasCJKStr d.subTitle = false →
       hasCJKStr d.instruction = false → hasCJKStr d.platform = false →
       hasCJKStr d.aspectRatio = false →
       ¬ strContains (buildPrompt d false) chineseBlock) := by
  constructor
  · intro f h
    have hc : hasChineseOf d = true := by
      simp only [hasChineseOf, hasCJK_append]
      rcases h with h | h | h <;> simp [h]
    obtain ⟨tail, htail⟩ := buildPrompt_decomp d f
    rw [htail, hc]
    simp only [Bool.true_or, if_true]
    exact strContains_appendR (strContains_suffix (basePrompt d) chineseBlock) tail
  · intro h1 h2 h3 h4 h5 hcon
    have hfree := buildPrompt_cjk_free d h1 h2 h3 h4 h5
    have hmem : ('简' : Char) ∈ (buildPrompt d false).data :=
      strContains_mem hcon (by decide)
    have : isCJK '简' = false := hasCJK_false_not_mem hfree hmem
    exact absurd this (by decide)

/-- C2 witness: a concrete CJK title forces the block, and a concrete CJK-free
    request omits it. -/
theorem c2_script_block_witness :
    strContains
      (buildPrompt { mainTitle := "学习", subTitle := "B", subjectImage := none,
                     referenceImage := none, instruction := "i", platform := "YouTube",
                     aspectRatio := "16:9" } false)
      chineseBlock
    ∧ ¬ strContains
      (buildPrompt { mainTitle := "A", subTitle := "B", subjectImage := none,
                     referenceImage := none, instruction := "i", platform := "YouTube",
                     aspectRatio := "16:9" } false)
      chineseBlock :=
  ⟨(c2_script_block _).1 false (Or.inl (by decide)),
   (c2_script_block _).2 (by decide) (by decide) (by decide) (by decide) (by decide)⟩

-- --- C3: checkApiKey ---

/-- C3: for the Gemini provider, checkApiKey returns true for every non-empty
    saved secret, whatever the host-interactive signal reports (including its
    absence); for every other provider it returns false for an absent secret or
    one of length at most 5, and true for every secret of length above 5.  The
    embedding is a pure function, so no state is mutated. -/
theorem c3_check_api_key :
    (∀ (env : HostEnv) (k : String), k ≠ "" → checkApiKey env .GEMINI (some k) = true)
    ∧ (∀ (env : HostEnv) (p : ModelProvider), p ≠ .GEMINI → checkApiKey env p none = false)
    ∧ (∀ (env : HostEnv) (p : ModelProvider) (k : String), p ≠ .GEMINI → k.length ≤ 5 →
        checkApiKey env p (some k) = false)
    ∧ (∀ (env : HostEnv) (p : ModelProvider) (k : String), p ≠ .GEMINI → 5 < k.length →
        checkApiKey env p (some k) = true) := by
  refine ⟨?_, ?_, ?_, ?_⟩
  · intro env k hk
    have ht : jsTruthy (some k) = true := by simp [jsTruthy, hk]
    unfold checkApiKey
    match henv : env.hasSelectedApiKey with
    | some true => rfl
    | some false => simp [henv, ht]
    | none => simp [henv, ht]
  · intro env p hp
    cases p <;> first | exact absurd rfl hp | rfl
  · intro env p k hp hk
    have hlen : decide (5 < k.length) = false := decide_eq_false (by omega)
    cases p <;> first
      | exact absurd rfl hp
      | simp [checkApiKey, hlen]
  · intro env p k hp hk
    have hne : k ≠ "" := by
      intro h
      rw [h] at hk
      simp at hk
    have ht : jsTruthy (some k) = true := by simp [jsTruthy, hne]
    have hlen : decide (5 < k.length) = true := decide_eq_true hk
    cases p <;> first
      | exact absurd rfl hp
      | simp [checkApiKey, ht, hlen]

/-- C3 witness: concrete secrets at both sides of the length threshold, with the
    interactive signal absent. -/
theorem c3_check_api_key_witness :
    checkApiKey ⟨none, none⟩ .GEMINI (some "k") = true
    ∧ checkApiKey ⟨none, none⟩ .SILICONFLOW none = false
    ∧ checkApiKey ⟨none, none⟩ .SILICONFLOW (some "12345") = false
    ∧ checkApiKey ⟨none, none⟩ .SILICONFLOW (some "123456") = true :=
  ⟨c3_check_api_key.1 ⟨none, none⟩ "k" (by decide),
   c3_check_api_key.2.1 ⟨none, none⟩ .SILICONFLOW (by decide),
   c3_check_api_key.2.2.1 ⟨none, none⟩ .SILICONFLOW "12345" (by decide) (by decide),
   c3_check_api_key.2.2.2 ⟨none, none⟩ .SILICONFLOW "123456" (by decide) (by decide)⟩

-- --- C6: SiliconFlow response handling ---

/-- C6: for the SiliconFlow adapter, every non-success HTTP status fails with an
    error whose message contains the message field of the parsed error body when
    present, otherwise the status text; a success response yields the returned
    image URLs, and an empty or absent list fails with the "no image data" error. -/
theorem c6_siliconflow_errors (fetch : SFRequestBody → SFResponse) (d : CoverFormData)
    (model apiKey : String) (resp : SFResponse) (hkey : apiKey ≠ "")
    (hfetch : fetch (sfRequestBody d model) = resp) :
    (∀ m, resp.ok = false → resp.errMessage = some m →
      ∃ msg, generateWithSiliconFlow fetch d model apiKey = .error msg ∧ strContains msg m)
    ∧ (resp.ok = false → resp.errMessage = none →
      generateWithSiliconFlow fetch d model apiKey = .error (sfErrPrefix ++ resp.statusText)
        ∧ strContains (sfErrPrefix ++ resp.statusText) resp.statusText)
    ∧ (∀ i is, resp.ok = true → resp.data = some (i :: is) →
      generateWithSiliconFlow fetch d model apiKey = .ok ((i :: is).map SFItem.url))
    ∧ (resp.ok = true → (resp.data = none ∨ resp.data = some []) →
      generateWithSiliconFlow fetch d model apiKey = .error sfNoImageMsg) := by
  have hkey2 : (apiKey == "") = false := by simpa using hkey
  refine ⟨?_, ?_, ?_, ?_⟩
  · intro m hok hmsg
    by_cases hm : m = ""
    · refine ⟨sfErrPrefix ++ resp.statusText, ?_, ?_⟩
      · simp [generateWithSiliconFlow, hkey2, hfetch, siliconFlowHandleResponse, hok,
          jsOrElse, hmsg, hm]
      · rw [hm]
        exact strContains_empty _
    · refine ⟨sfErrPrefix ++ m, ?_, strContains_suffix sfErrPrefix m⟩
      simp [generateWithSiliconFlow, hkey2, hfetch, siliconFlowHandleResponse, hok,
        jsOrElse, hmsg, hm]
  · intro hok hmsg
    refine ⟨?_, strContains_suffix sfErrPrefix resp.statusText⟩
    simp [generateWithSiliconFlow, hkey2, hfetch, siliconFlowHandleResponse, hok,
      jsOrElse, hmsg]
  · intro i is hok hdata
    simp [generateWithSiliconFlow, hkey2, hfetch, siliconFlowHandleResponse, hok, hdata]
  · intro hok hdata
    rcases hdata with h | h <;>
      simp [generateWithSiliconFlow, hkey2, hfetch, siliconFlowHandleResponse, hok, h]

/-- C6 witness: a non-2xx response with body message "bad key" fails with an
    error containing "bad key" (end-to-end scenario 2). -/
theorem c6_siliconflow_errors_witness :
    ∃ msg,
      generateWithSiliconFlow
        (fun _ => { ok := false, errMessage := some "bad key", statusText := "Unauthorized",
                    data := none })
        sampleData "black-forest-labs/FLUX.1-schnell" "sk-cn-123456" = .error msg
      ∧ strContains msg "bad key" :=
  (c6_siliconflow_errors
      (fun _ => { ok := false, errMessage := some "bad key", statusText := "Unauthorized",
                  data := none })
      sampleData "black-forest-labs/FLUX.1-schnell" "sk-cn-123456" _
      (by decide) rfl).1 "bad key" rfl rfl

-- --- C8: SiliconFlow prompt/body vs attached images ---

set_option maxRecDepth 100000 in
/-- C8 counterexample: two requests that differ only in their referenceImage
    attachment produce different request bodies (the prompt gains the reference
    directive), refuting "attached images are ignored entirely / the same request
    body is issued". -/
theorem c8_counterexample :
    sfRequestBody sampleDataRef "black-forest-labs/FLUX.1-schnell"
      ≠ sfRequestBody sampleData "black-forest-labs/FLUX.1-schnell" := by
  intro h
  have hlen := congrArg (fun b => b.prompt.length) h
  exact absurd hlen (by decide)

/-- C8 (amended): the SiliconFlow adapter sends no image payload — the request
    body consists of the model id, the text prompt with the fixed
    "render text accurately" suffix, and two fixed parameters — and the body
    depends on attachments only through their presence, never their content: two
    requests with equal text fields and equal attachment presence yield the same
    body.  (Presence does change the prompt, as the counterexample shows.) -/
theorem c8_amended_body_ignores_image_content :
    (∀ (d d' : CoverFormData) (model : String),
      d.mainTitle = d'.mainTitle → d.subTitle = d'.subTitle →
      d.instruction = d'.instruction → d.platform = d'.platform →
      d.aspectRatio = d'.aspectRatio →
      d.subjectImage.isSome = d'.subjectImage.isSome →
      d.referenceImage.isSome = d'.referenceImage.isSome →
      sfRequestBody d model = sfRequestBody d' model)
    ∧ (∀ (d : CoverFormData) (model : String),
      sfRequestBody d model =
        { model := model, prompt := buildPrompt d ++ sfFluxSuffix,
          image_size := "1024x1024", num_inference_steps := 25 }) := by
  constructor
  · intro d d' model h1 h2 h3 h4 h5 h6 h7
    have hbp : buildPrompt d = buildPrompt d' := by
      unfold buildPrompt basePrompt hasChineseOf
      rw [h1, h2, h3, h4, h5, h6, h7]
    simp [sfRequestBody, hbp]
  · intro d model
    rfl

/-- C8 amended witness: two attachments with different bytes and MIME types give
    the identical request body. -/
theorem c8_amended_witness :
    sfRequestBody { sampleData with referenceImage := some { base64 := "AAAA", mime := "image/png" } }
        "black-forest-labs/FLUX.1-dev"
      = sfRequestBody { sampleData with referenceImage := some { base64 := "BBBB", mime := "image/jpeg" } }
        "black-forest-labs/FLUX.1-dev" :=
  c8_amended_body_ignores_image_content.1 _ _ _ rfl rfl rfl rfl rfl rfl rfl

-- --- C9: handleGenerate dispatch ---

/-- C9: in handleGenerate, a failing credential check for Gemini still proceeds
    to the generateCoverImage call after the interactive-selection attempt; for
    every other provider a failing check raises the configuration error naming
    the provider (its display name when configured) before any adapter call. -/
theorem c9_dispatch_gemini_vs_others :
    (∀ (env : HostEnv) (k : Option String), checkApiKey env .GEMINI k = false →
      handleGenerateDispatch env .GEMINI k = .proceed true)
    ∧ (∀ (env : HostEnv) (p : ModelProvider) (k : Option String), p ≠ .GEMINI →
      checkApiKey env p k = false →
      handleGenerateDispatch env p k = .configError (configErrMsg p))
    ∧ strContains (configErrMsg .SILICONFLOW) "SiliconFlow" := by
  refine ⟨?_, ?_, ?_⟩
  · intro env k hc
    simp [handleGenerateDispatch, hc]
  · intro env p k hp hc
    cases p <;> first
      | exact absurd rfl hp
      | simp [handleGenerateDispatch, hc]
  · refine ⟨"Please enter an API Key for ".data, " in Settings.".data, ?_⟩
    simp [configErrMsg, providerDisplayName, jsInterp, String.data_append]

/-- C9 witness: with no interactive signal and no saved key, Gemini proceeds
    (selection attempted) while SiliconFlow gets the configuration error. -/
theorem c9_dispatch_witness :
    handleGenerateDispatch ⟨none, none⟩ .GEMINI none = .proceed true
    ∧ handleGenerateDispatch ⟨none, none⟩ .SILICONFLOW none
        = .configError (configErrMsg .SILICONFLOW) :=
  ⟨c9_dispatch_gemini_vs_others.1 ⟨none, none⟩ none (by decide),
   c9_dispatch_gemini_vs_others.2.1 ⟨none, none⟩ .SILICONFLOW none (by decide) (by decide)⟩

-- --- C1: no downgrade retry exists in the Gemini adapter ---

/-- C1 counterexample: with the high-tier model rejected by a 403 permission
    error (and an oracle under which a retry with any other model would succeed),
    the adapter issues exactly one generateContent call — with the requested
    high-tier model, never a fallback — and fails with the fixed permission
    message instead of returning retry images. -/
theorem c1_counterexample :
    (generateWithGemini permOnHighTierGen sampleData highTierModel "key" ⟨none, none⟩).calls.map
        GemCall.model = [highTierModel]
    ∧ (generateWithGemini permOnHighTierGen sampleData highTierModel "key" ⟨none, none⟩).result
        = .error (.thrown geminiPermissionMsg) := by
  constructor <;> rfl

/-- C1 (amended): on a permission-denied signal (403 status or permission message
    pattern), the adapter performs no retry for any model tier: it issues exactly
    one generateContent call, with the requested model, and fails with the fixed
    permission-guidance message (which tells the user to switch models manually). -/
theorem c1_amended_no_retry (gen : GemCall → GenOutcome) (data : CoverFormData)
    (model apiKey : String) (env : HostEnv) (e : JsError)
    (hkey : apiKey ≠ "")
    (hgen : gen (geminiCall data model) = .err e)
    (hperm : isPermissionSignal e = true) :
    (generateWithGemini gen data model apiKey env).calls = [geminiCall data model]
    ∧ (generateWithGemini gen data model apiKey env).result
        = .error (.thrown geminiPermissionMsg) := by
  have hk : jsTruthy (some apiKey) = true := by simp [jsTruthy, hkey]
  constructor <;>
    simp [generateWithGemini, hk, hgen, classifyGeminiError, hperm]

/-- C1 amended witness: the concrete 403 rejection of the high-tier model. -/
theorem c1_amended_no_retry_witness :
    (generateWithGemini permOnHighTierGen sampleData highTierModel "key" ⟨none, none⟩).calls
      = [geminiCall sampleData highTierModel]
    ∧ (generateWithGemini permOnHighTierGen sampleData highTierModel "key" ⟨none, none⟩).result
      = .error (.thrown geminiPermissionMsg) :=
  c1_amended_no_retry permOnHighTierGen sampleData highTierModel "key" ⟨none, none⟩ permErr
    (by decide) rfl (by decide)

-- --- C7: no quota branch exists in the Gemini adapter ---

/-- C7 counterexample: on a concrete quota/resource-exhaustion error (status 429,
    RESOURCE_EXHAUSTED message) the adapter does not fail with any distinct
    billing-guidance message: it passes the original error through unmodified,
    exactly like the generic pass-through case (no retry occurs either). -/
theorem c7_counterexample :
    (generateWithGemini quotaGen sampleData highTierModel "key" ⟨none, none⟩).result
      = .error (.passThrough quotaErr)
    ∧ (generateWithGemini quotaGen sampleData highTierModel "key" ⟨none, none⟩).calls.length
      = 1 := by
  constructor <;> rfl

/-- C7 (amended): every error carrying a quota/resource-exhaustion signal (and
    matching neither the permission patterns nor the network-failure patterns of
    the catch block) is passed through unmodified — no distinct billing-guidance
    message exists — and no retry occurs: exactly one call is issued. -/
theorem c7_amended_quota_passthrough (gen : GemCall → GenOutcome) (data : CoverFormData)
    (model apiKey : String) (env : HostEnv) (e : JsError)
    (hkey : apiKey ≠ "")
    (hgen : gen (geminiCall data model) = .err e)
    (_hq : isQuotaSignal e = true)
    (hp : isPermissionSignal e = false)
    (hn : isNetworkSignal e = false) :
    (generateWithGemini gen data model apiKey env).result = .error (.passThrough e)
    ∧ (generateWithGemini gen data model apiKey env).calls = [geminiCall data model] := by
  have hk : jsTruthy (some apiKey) = true := by simp [jsTruthy, hkey]
  constructor <;>
    simp [generateWithGemini, hk, hgen, classifyGeminiError, hp, hn]

/-- C7 amended witness: the concrete quota error. -/
theorem c7_amended_quota_passthrough_witness :
    (generateWithGemini quotaGen sampleData highTierModel "key" ⟨none, none⟩).result
      = .error (.passThrough quotaErr)
    ∧ (generateWithGemini quotaGen sampleData highTierModel "key" ⟨none, none⟩).calls
      = [geminiCall sampleData highTierModel] :=
  c7_amended_quota_passthrough quotaGen sampleData highTierModel "key" ⟨none, none⟩ quotaErr
    (by decide) rfl (by decide) (by decide) (by decide)

-- --- Qwen poll-loop lemmas ---

theorem qwenLoopAux_timeout (resp : Nat → PollResponse)
    (hnt : ∀ i, i < qwenMaxAttempts → qwenNonTerminal (resp i)) :
    ∀ (fuel attempts : Nat) (status : Option String),
      attempts + fuel = qwenMaxAttempts → status ≠ some "SUCCEEDED" →
      qwenLoopAux resp status attempts fuel
        = { outcome := .error qwenTimeoutMsg, polls := fuel, waits := fuel } := by
  intro fuel
  induction fuel with
  | zero => intro attempts status _ _; rfl
  | succ fuel ih =>
    intro attempts status hsum hst
    have hcond : (status == some "SUCCEEDED" || decide (qwenMaxAttempts ≤ attempts)) = false := by
      simp only [Bool.or_eq_false_iff, beq_eq_false_iff_ne, decide_eq_false_iff_not]
      exact ⟨hst, by omega⟩
    simp only [qwenLoopAux, hcond, Bool.false_eq_true, if_false]
    split
    · rw [ih (attempts + 1) status (by omega) hst]
      rfl
    · next ts results msg heq =>
      have hn := hnt attempts (by omega)
      rw [heq] at hn
      obtain ⟨hts, htf⟩ := hn
      rw [show (ts == some "SUCCEEDED") = false from by simpa using hts]
      rw [show (ts == some "FAILED") = false from by simpa using htf]
      simp only [Bool.false_eq_true, if_false]
      rw [ih (attempts + 1) ts (by omega) hts]
      rfl

theorem qwenLoopAux_success (resp : Nat → PollResponse) (u : QwenItem) (us : List QwenItem)
    (m : Option String) :
    ∀ (fuel k attempts : Nat) (status : Option String),
      attempts + fuel = qwenMaxAttempts → status ≠ some "SUCCEEDED" →
      (∀ i, i < k → qwenNonTerminal (resp (attempts + i))) →
      k < fuel →
      resp (attempts + k) = .ok (some "SUCCEEDED") (some (u :: us)) m →
      qwenLoopAux resp status attempts fuel
        = { outcome := .ok ((u :: us).map QwenItem.url), polls := k + 1, waits := k + 1 } := by
  intro fuel
  induction fuel with
  | zero => intro k attempts status _ _ _ hk _; omega
  | succ fuel ih =>
    intro k attempts status hsum hst hnt hk hres
    have hcond : (status == some "SUCCEEDED" || decide (qwenMaxAttempts ≤ attempts)) = false := by
      simp only [Bool.or_eq_false_iff, beq_eq_false_iff_ne, decide_eq_false_iff_not]
      exact ⟨hst, by omega⟩
    simp only [qwenLoopAux, hcond, Bool.false_eq_true, if_false]
    cases k with
    | zero =>
      rw [show resp attempts = .ok (some "SUCCEEDED") (some (u :: us)) m from by simpa using hres]
      simp
    | succ k =>
      have hnt1 : ∀ i, i < k → qwenNonTerminal (resp (attempts + 1 + i)) := by
        intro i hi
        have := hnt (i + 1) (by omega)
        rwa [show attempts + (i + 1) = attempts + 1 + i from by omega] at this
      have hres1 : resp (attempts + 1 + k) = .ok (some "SUCCEEDED") (some (u :: us)) m := by
        rwa [show attempts + 1 + k = attempts + (k + 1) from by omega]
      split
      · rw [ih k (attempts + 1) status (by omega) hst hnt1 (by omega) hres1]
        rfl
      · next ts results msg heq =>
        have hn := hnt 0 (by omega)
        rw [show attempts + 0 = attempts from by omega, heq] at hn
        obtain ⟨hts, htf⟩ := hn
        rw [show (ts == some "SUCCEEDED") = false from by simpa using hts]
        rw [show (ts == some "FAILED") = false from by simpa using htf]
        simp only [Bool.false_eq_true, if_false]
        rw [ih k (attempts + 1) ts (by omega) hts hnt1 (by omega) hres1]
        rfl

theorem qwenLoopAux_succEmpty (resp : Nat → PollResponse) (r : Option (List QwenItem))
    (m : Option String) (hr : r = none ∨ r = some []) :
    ∀ (fuel k attempts : Nat) (status : Option String),
      attempts + fuel = qwenMaxAttempts → status ≠ some "SUCCEEDED" →
      (∀ i, i < k → qwenNonTerminal (resp (attempts + i))) →
      k < fuel →
      resp (attempts + k) = .ok (some "SUCCEEDED") r m →
      qwenLoopAux resp status attempts fuel
        = { outcome := .error qwenTimeoutMsg, polls := k + 1, waits := k + 1 } := by
  intro fuel
  induction fuel with
  | zero => intro k attempts status _ _ _ hk _; omega
  | succ fuel ih =>
    intro k attempts status hsum hst hnt hk hres
    have hcond : (status == some "SUCCEEDED" || decide (qwenMaxAttempts ≤ attempts)) = false := by
      simp only [Bool.or_eq_false_iff, beq_eq_false_iff_ne, decide_eq_false_iff_not]
      exact ⟨hst, by omega⟩
    simp only [qwenLoopAux, hcond, Bool.false_eq_true, if_false]
    cases k with
    | zero =>
      rw [show resp attempts = .ok (some "SUCCEEDED") r m from by simpa using hres]
      have hrec : qwenLoopAux resp (some "SUCCEEDED") (attempts + 1) fuel
          = { outcome := .error qwenTimeoutMsg, polls := 0, waits := 0 } := by
        cases fuel with
        | zero => rfl
        | succ fuel => simp [qwenLoopAux]
      rcases hr with h | h <;> subst h <;> simp [hrec, qwenStep]
    | succ k =>
      have hnt1 : ∀ i, i < k → qwenNonTerminal (resp (attempts + 1 + i)) := by
        intro i hi
        have := hnt (i + 1) (by omega)
        rwa [show attempts + (i + 1) = attempts + 1 + i from by omega] at this
      have hres1 : resp (attempts + 1 + k) = .ok (some "SUCCEEDED") r m := by
        rwa [show attempts + 1 + k = attempts + (k + 1) from by omega]
      split
      · rw [ih k (attempts + 1) status (by omega) hst hnt1 (by omega) hres1]
        rfl
      · next ts results msg heq =>
        have hn := hnt 0 (by omega)
        rw [show attempts + 0 = attempts from by omega, heq] at hn
        obtain ⟨hts, htf⟩ := hn
        rw [show (ts == some "SUCCEEDED") = false from by simpa using hts]
        rw [show (ts == some "FAILED") = false from by simpa using htf]
        simp only [Bool.false_eq_true, if_false]
        rw [ih k (attempts + 1) ts (by omega) hts hnt1 (by omega) hres1]
        rfl

-- --- C4: the Qwen poll loop budget ---

/-- C4: for the Qwen adapter poll loop, (1) a status stream that never reports
    SUCCEEDED or FAILED gives exactly 30 polls at one second of wait each and
    the timeout error, with no 31st poll; (2) the stream PENDING, PENDING,
    SUCCEEDED-with-results returns those result urls after exactly 3 polls
    (3 seconds of wait, hence at least 2); (3) a non-ok HTTP poll response is
    swallowed — the loop continues and can still succeed afterwards; and (4) such
    a response consumes one of the 30 attempts: after one non-ok response and 29
    PENDINGs, a SUCCEEDED visible only at poll index 30 is never polled and the
    loop times out at 30 polls. -/
theorem c4_qwen_poll_budget :
    (∀ resp : Nat → PollResponse, (∀ i, i < qwenMaxAttempts → qwenNonTerminal (resp i)) →
      generateWithQwenPoll resp
        = { outcome := .error qwenTimeoutMsg, polls := 30, waits := 30 })
    ∧ (∀ (resp : Nat → PollResponse) (u : QwenItem) (us : List QwenItem)
        (r0 r1 : Option (List QwenItem)) (m0 m1 m2 : Option String),
      resp 0 = .ok (some "PENDING") r0 m0 → resp 1 = .ok (some "PENDING") r1 m1 →
      resp 2 = .ok (some "SUCCEEDED") (some (u :: us)) m2 →
      generateWithQwenPoll resp
        = { outcome := .ok ((u :: us).map QwenItem.url), polls := 3, waits := 3 })
    ∧ (∀ (resp : Nat → PollResponse) (u : QwenItem) (us : List QwenItem) (m : Option String),
      resp 0 = .httpError → resp 1 = .ok (some "SUCCEEDED") (some (u :: us)) m →
      generateWithQwenPoll resp
        = { outcome := .ok ((u :: us).map QwenItem.url), polls := 2, waits := 2 })
    ∧ (∀ (resp : Nat → PollResponse) (u : QwenItem) (us : List QwenItem) (m : Option String),
      resp 0 = .httpError →
      (∀ i, 1 ≤ i → i < qwenMaxAttempts → qwenNonTerminal (resp i)) →
      resp qwenMaxAttempts = .ok (some "SUCCEEDED") (some (u :: us)) m →
      generateWithQwenPoll resp
        = { outcome := .error qwenTimeoutMsg, polls := 30, waits := 30 }) := by
  refine ⟨?_, ?_, ?_, ?_⟩
  · intro resp hnt
    exact qwenLoopAux_timeout resp hnt qwenMaxAttempts 0 (some "PENDING") rfl (by decide)
  · intro resp u us r0 r1 m0 m1 m2 h0 h1 h2
    refine qwenLoopAux_success resp u us m2 qwenMaxAttempts 2 0 (some "PENDING") rfl
      (by decide) ?_ (by decide) h2
    intro i hi
    interval_cases i <;> simp [h0, h1, qwenNonTerminal]
  · intro resp u us m h0 h1
    refine qwenLoopAux_success resp u us m qwenMaxAttempts 1 0 (some "PENDING") rfl
      (by decide) ?_ (by decide) h1
    intro i hi
    interval_cases i
    simp [h0, qwenNonTerminal]
  · intro resp u us m h0 hnt _
    refine qwenLoopAux_timeout resp ?_ qwenMaxAttempts 0 (some "PENDING") rfl (by decide)
    intro i hi
    cases Nat.eq_zero_or_pos i with
    | inl h => rw [h, h0]; trivial
    | inr h => exact hnt i h hi

/-- C4 witness: the four concrete poll streams. -/
theorem c4_qwen_poll_budget_witness :
    generateWithQwenPoll qwenAllPending
      = { outcome := .error qwenTimeoutMsg, polls := 30, waits := 30 }
    ∧ generateWithQwenPoll qwenPendPendSucc
      = { outcome := .ok ["https://cdn.example/i1.png"], polls := 3, waits := 3 }
    ∧ generateWithQwenPoll qwenErrThenSucc
      = { outcome := .ok ["https://cdn.example/i2.png"], polls := 2, waits := 2 }
    ∧ generateWithQwenPoll qwenErrThenPend
      = { outcome := .error qwenTimeoutMsg, polls := 30, waits := 30 } :=
  ⟨c4_qwen_poll_budget.1 qwenAllPending (fun i _ => ⟨by decide, by decide⟩),
   c4_qwen_poll_budget.2.1 qwenPendPendSucc ⟨"https://cdn.example/i1.png"⟩ [] none none
     none none none rfl rfl rfl,
   c4_qwen_poll_budget.2.2.1 qwenErrThenSucc ⟨"https://cdn.example/i2.png"⟩ [] none rfl rfl,
   c4_qwen_poll_budget.2.2.2 qwenErrThenPend ⟨"https://cdn.example/i3.png"⟩ [] none rfl
     (by
       intro i h1 h30
       have h30n : i < 30 := h30
       simp only [qwenErrThenPend]
       rw [if_neg (by omega), if_neg (by omega)]
       exact ⟨by decide, by decide⟩)
     (by rw [show qwenErrThenPend qwenMaxAttempts
           = .ok (some "SUCCEEDED") (some [⟨"https://cdn.example/i3.png"⟩]) none from rfl])⟩

-- --- C10: SUCCEEDED with an empty results list ---

/-- C10: if a Qwen poll response reports task_status SUCCEEDED with an empty or
    absent results list (after any run of non-terminal polls), the loop exits
    without returning: the adapter fails with the generic timeout message — not a
    distinct empty-result error — and performs no further polls (the SUCCEEDED
    poll is the last one). -/
theorem c10_qwen_empty_succeeded (resp : Nat → PollResponse) (k : Nat)
    (r : Option (List QwenItem)) (m : Option String)
    (hk : k < qwenMaxAttempts)
    (hnt : ∀ i, i < k → qwenNonTerminal (resp i))
    (hres : resp k = .ok (some "SUCCEEDED") r m)
    (hempty : r = none ∨ r = some []) :
    generateWithQwenPoll resp
      = { outcome := .error qwenTimeoutMsg, polls := k + 1, waits := k + 1 } :=
  qwenLoopAux_succEmpty resp r m hempty qwenMaxAttempts k 0 (some "PENDING") rfl
    (by decide) (by intro i hi; rw [Nat.zero_add]; exact hnt i hi) hk
    (by rw [Nat.zero_add]; exact hres)

/-- C10 witness: an immediate SUCCEEDED with empty results times out after one poll. -/
theorem c10_qwen_empty_succeeded_witness :
    generateWithQwenPoll qwenEmptySucc
      = { outcome := .error qwenTimeoutMsg, polls := 1, waits := 1 } :=
  c10_qwen_empty_succeeded qwenEmptySucc 0 (some []) none (by decide)
    (fun i hi => absurd hi (by omega)) rfl (Or.inr rfl)
